import Mathlib

/-!
Shallow embedding of the `ia-helpdesk` repository (retrieval-augmented helpdesk
assistant).  The parts embedded here are the ones the verified claims are
about:

* `app/constants.py`  — stopword set and negative-phrase list;
* `app/rag.py`        — `compute_confidence`, `format_context`,
  `extract_sources`, `empty_rag_response`, `query_rag`;
* `app/graph.py`      — the five LangGraph nodes (`run_rag`,
  `classify_with_context`, `prepare_escalation`, `process_human_answer`,
  `generate_final_answer`) together with the merge semantics of the graph
  state (`history` is the single concatenating field, every other field is
  overwritten by the returned partial state);
* `app/ui.py`         — `resume_with_human_answer` (inject the human answer
  into the checkpointed state, then re-enter the pending `process_human`
  node);
* `app/vectorstore.py` — `create_vectorstore` (idempotent ingestion keyed by
  content-derived ids).

Python floats are embedded as rationals (`ℚ`); the heuristic constants of the
source (0.4, 0.6, …) are exact decimal fractions, so the arithmetic of the
source is representable exactly.  External collaborators (the retriever, the
generation and classification models, the SHA-256 hash) are parameters of the
embedded functions: every claim below holds for all of their possible
outputs, matching the source's treatment of them as opaque text-in/text-out
calls.
-/

namespace Helpdesk

/-- `STOPWORDS` from `app/constants.py`. -/
def STOPWORDS : List String := ["de", "la", "el", "y", "o", "que"]

/-- `RAG_NEGATIVE_PHRASES` from `app/constants.py`. -/
def RAG_NEGATIVE_PHRASES : List String :=
  ["no contiene información",
   "no se encontró información",
   "no incluye información",
   "no puedo responder",
   "desconozco"]

/-- Python truthiness of an optional string: `None` and `""` are falsy,
every other string is truthy.  This is the test performed by
`state.get("human_answer")` / `state.get("final_answer")` in `app/graph.py`
and by `if not rag_answer` in `app/rag.py`. -/
def truthy : Option String → Bool
  | none => false
  | some s => s != ""

/-- Python's substring test `needle in haystack`. -/
def hasSubstr (haystack needle : String) : Bool :=
  decide (needle.data <:+: haystack.data)

/-- Python's `str.lower()` (character-wise lowering; the source only feeds
it ASCII-relevant comparisons). -/
def pyLower (s : String) : String := ⟨s.data.map Char.toLower⟩

/-- Python's `str.strip()` with no argument: drop leading and trailing
whitespace. -/
def pyStrip (s : String) : String :=
  ⟨((s.data.dropWhile Char.isWhitespace).reverse.dropWhile Char.isWhitespace).reverse⟩

/-- Python's `str.split()` with no argument: split on whitespace runs and
drop empty pieces. -/
def pySplit (s : String) : List String :=
  ((s.data.splitOnP Char.isWhitespace).map (fun cs => (⟨cs⟩ : String))).filter
    (fun w => w != "")

/-- The final clamp `min(max(confidence, 0.0), 1.0)` of
`compute_confidence` in `app/rag.py`. -/
def clamp01 (x : ℚ) : ℚ := min (max x 0) 1

/-- A retrieved fragment: the `page_content` and the `filename` metadata
entry of a LangChain `Document` (the only attributes `app/rag.py` reads). -/
structure Document where
  page_content : String
  filename : Option String
deriving DecidableEq

/-- `compute_confidence` from `app/rag.py` (lines 51–129): heuristic
confidence in `[0,1]` from the query, the generated answer, the retrieved
documents and the scored documents.  `rag_answer = none` models Python's
`None`; the guard `if not docs or not rag_answer` also fires on the empty
string. -/
def compute_confidence (query : String) (rag_answer : Option String)
    (docs : List Document) (scored_docs : List (Document × ℚ)) : ℚ :=
  if docs = [] ∨ truthy rag_answer = false then 0
  else
    let answer := rag_answer.getD ""
    let answer_lower := pyLower answer
    let query_lower := pyLower query
    if RAG_NEGATIVE_PHRASES.any (fun phrase => hasSubstr answer_lower phrase) then 1/5
    else
      let base : ℚ := 2/5
      let withRetrieval :=
        if scored_docs ≠ [] then
          let similarities := scored_docs.map (fun pd => 1 / (1 + pd.2))
          base + (2/5) * (similarities.sum / (similarities.length : ℚ))
        else base
      let withCount :=
        if 5 ≤ docs.length then withRetrieval + 1/10
        else if 3 ≤ docs.length then withRetrieval + 1/20
        else withRetrieval
      let answer_len := (pySplit answer).length
      let withLen :=
        if 50 < answer_len then withCount + 1/20
        else if answer_len < 10 then withCount - 1/10
        else withCount
      let query_words := (pySplit query_lower).filter (fun w => !STOPWORDS.contains w)
      let withMatch :=
        if query_words ≠ [] then
          let nMatches := (query_words.filter (fun w => hasSubstr answer_lower w)).length
          withLen + (1/5) * ((nMatches : ℚ) / (query_words.length : ℚ))
        else withLen
      clamp01 withMatch

/-- `format_context` from `app/rag.py`: keep at most `k` (= `SEARCH_K`)
documents, drop the ones whose content strips to empty, prefix each kept one
with a numbered header (and the source filename when present), and join with
blank lines.  `k` is the configured `SEARCH_K` constant, a parameter here. -/
def format_context (k : Nat) (docs : List Document) : String :=
  let parts := (List.enumFrom 1 (docs.take k)).filterMap (fun p =>
    let content := pyStrip p.2.page_content
    if content = "" then none
    else
      let header := "[Document " ++ toString p.1 ++ "]"
      let header :=
        match p.2.filename with
        | some f => if f != "" then header ++ " - Source: " ++ f else header
        | none => header
      some (header ++ "\n" ++ content))
  String.intercalate "\n\n" parts

/-- `extract_sources` from `app/rag.py`: first-seen-order list of the
distinct truthy `filename` metadata values of the first `k` documents. -/
def extract_sources (k : Nat) (docs : List Document) : List String :=
  (docs.take k).foldl (fun sources d =>
    match d.filename with
    | some f => if f != "" ∧ ¬ sources.contains f then sources ++ [f] else sources
    | none => sources) []

/-- The dictionary returned by `query_rag` in `app/rag.py`.  The
`rag_context` and `requires_human` keys are only present in the
`empty_rag_response` dictionaries; `none` models an absent key. -/
structure RagResponse where
  answer : String
  confidence : ℚ
  sources : List String
  rag_context : Option String
  requires_human : Option Bool
deriving DecidableEq

/-- `empty_rag_response` from `app/rag.py` (lines 151–162): answer is the
given message, confidence is hard-coded to `0.0`, sources default to `[]`,
`rag_context` is `""` and `requires_human` is `True`. -/
def empty_rag_response (message : String) (sources : List String) : RagResponse :=
  { answer := message
    confidence := 0
    sources := sources
    rag_context := some ""
    requires_human := some true }

/-- `query_rag` from `app/rag.py` (lines 214–274), with the external
collaborators as parameters: `retrieved` is what `retriever.invoke(query)`
returned, `genAnswer` what `rag_chain.invoke(query)` would return, and
`scored` what `similarity_search_with_score` would return.  Case 1: no
documents → empty response without sources.  Case 2: documents but no useful
content after stripping → empty response that keeps the extracted sources.
Normal case: answer, computed confidence and sources. -/
def query_rag (k : Nat) (retrieved : List Document) (genAnswer : String)
    (scored : List (Document × ℚ)) (query : String) : RagResponse :=
  if retrieved = [] then
    empty_rag_response "No se encontró información relevante en la base de conocimiento." []
  else
    let context := format_context k retrieved
    let sources := extract_sources k retrieved
    if pyStrip context = "" then
      empty_rag_response "Se encontraron documentos, pero no contienen información útil." sources
    else
      { answer := genAnswer
        confidence := compute_confidence query (some genAnswer) retrieved scored
        sources := sources
        rag_context := none
        requires_human := none }

/-- `HelpdeskState` from `app/schemas.py`: the graph state threaded through
the LangGraph nodes.  `history` is declared `Annotated[List[str], add]`, so
a node's returned `history` list is concatenated onto the existing one while
every other returned key overwrites its field. -/
structure HelpdeskState where
  query : String
  rag_answer : Option String
  confidence : ℚ
  sources : List String
  rag_context : Option String
  category : Option String
  requires_human : Bool
  human_answer : Option String
  final_answer : Option String
  history : List String
deriving DecidableEq

/-- The dictionary `query_rag` hands to the `run_rag` node, as the node
reads it: `result.get("rag_context", result["answer"])` defaults an absent
`rag_context` key to the answer. -/
structure RagResult where
  answer : String
  confidence : ℚ
  sources : List String
  rag_context : Option String
deriving DecidableEq

/-- Node 1, `run_rag` from `app/graph.py` (lines 19–36), with the
`query_rag` result as a parameter.  Overwrites the RAG fields and appends
three trace entries. -/
def run_rag (result : RagResult) (s : HelpdeskState) : HelpdeskState :=
  { s with
    rag_answer := some result.answer
    confidence := result.confidence
    sources := result.sources
    rag_context := some (result.rag_context.getD result.answer)
    history := s.history ++
      ["RAG ejecutado con MultiQuery + MMR",
       "Confianza heurística obtenida: " ++ toString result.confidence,
       "Fuentes consultadas: " ++ toString result.sources.length] }

/-- Node 2, `classify_with_context` from `app/graph.py` (lines 42–77), with
the classification model's output text as a parameter.  The lowered output
is scanned for the literal tokens; if neither occurs, the deterministic
fallback routes on `confidence >= 0.6`. -/
def classify_with_context (llmContent : String) (s : HelpdeskState) : HelpdeskState :=
  let content := pyLower llmContent
  let category :=
    if hasSubstr content "automatic" then "automatic"
    else if hasSubstr content "escalated" then "escalated"
    else if (6 : ℚ)/10 ≤ s.confidence then "automatic" else "escalated"
  { s with
    category := some category
    history := s.history ++
      ["Clasificación realizada: " ++ category,
       "Justificación LLM: " ++ llmContent] }

/-- Node 3, `prepare_escalation` from `app/graph.py` (lines 84–93). -/
def prepare_escalation (s : HelpdeskState) : HelpdeskState :=
  { s with
    requires_human := true
    human_answer := none
    history := s.history ++ ["Consulta escalada a agente humano."] }

/-- Node 4, `process_human_answer` from `app/graph.py` (lines 100–112):
if `state.get("human_answer")` is truthy, copy it into `final_answer` and
trace it; otherwise only trace that the ticket is still waiting. -/
def process_human_answer (s : HelpdeskState) : HelpdeskState :=
  if truthy s.human_answer then
    { s with
      final_answer := s.human_answer
      history := s.history ++ ["Respuesta proporcionada por agente humano."] }
  else
    { s with history := s.history ++ ["Esperando respuesta del agente humano."] }

/-- The answer synthesized by `generate_final_answer` when `final_answer`
is not yet set: `state.get("rag_answer", "")` plus the human-readable
source list when `sources` is non-empty. -/
def auto_answer (s : HelpdeskState) : String :=
  let answer := s.rag_answer.getD ""
  if s.sources = [] then answer
  else answer ++ "\n\nFuentes consultadas: " ++ String.intercalate ", " s.sources

/-- Node 5, `generate_final_answer` from `app/graph.py` (lines 119–138):
if `final_answer` is already truthy, only trace; otherwise set it to the
RAG answer with the appended source list. -/
def generate_final_answer (s : HelpdeskState) : HelpdeskState :=
  if truthy s.final_answer then
    { s with history := s.history ++ ["Respuesta final ya establecida por humano."] }
  else
    { s with
      final_answer := some (auto_answer s)
      history := s.history ++ ["Respuesta final generada automáticamente."] }

/-- One transition of the resolution state machine: one of the five graph
nodes of `app/graph.py`, or the external `update_state` injection performed
by `resume_with_human_answer` in `app/ui.py` (which writes only the
`human_answer` key).  The oracle arguments carry the external model
outputs consumed by the node. -/
inductive Step where
  | rag (result : RagResult)
  | classify (llmContent : String)
  | escalation
  | process_human
  | final_answer
  | inject (a : Option String)
deriving DecidableEq

/-- Run one transition on the state. -/
def runStep : Step → HelpdeskState → HelpdeskState
  | .rag r, s => run_rag r s
  | .classify c, s => classify_with_context c s
  | .escalation, s => prepare_escalation s
  | .process_human, s => process_human_answer s
  | .final_answer, s => generate_final_answer s
  | .inject a, s => { s with human_answer := a }

/-- Run a sequence of transitions (any interleaving of node executions and
suspend/resume injections). -/
def runSteps (steps : List Step) (s : HelpdeskState) : HelpdeskState :=
  steps.foldl (fun st step => runStep step st) s

/-- `resume_with_human_answer` from `app/ui.py` (lines 186–245), restricted
to the single-ticket state it manipulates: `update_state` writes the given
`human_answer` into the checkpointed state, and the stream then executes the
one pending node, `process_human` (the graph was interrupted right before
it; its only outgoing edge is `END`). -/
def resume_with_human_answer (s : HelpdeskState) (human_answer : String) : HelpdeskState :=
  process_human_answer { s with human_answer := some human_answer }

/-- A fragment as `create_vectorstore` in `app/vectorstore.py` sees it:
its `page_content` and the string serialization of its metadata dict. -/
structure VDoc where
  page_content : String
  metadata : String
deriving DecidableEq

/-- `create_vectorstore` from `app/vectorstore.py` (lines 23–59), with the
SHA-256 hex digest `hash_text` of `app/services/utils.py` as an opaque
string-to-string parameter and the Chroma collection represented by its id
list.  Each document's id is `hash_text(page_content + str(metadata))`;
documents whose id is already in the store are skipped; the new documents
are added.  Returns the resulting store and the inserted count that the
source reports in its log line. -/
def create_vectorstore (hash_text : String → String) (store : List String)
    (docs : List VDoc) : List String × Nat :=
  let ids := docs.map (fun d => hash_text (d.page_content ++ d.metadata))
  let selected := (docs.zip ids).filter (fun p => !store.contains p.2)
  let new_docs := selected.map Prod.fst
  let new_ids := selected.map Prod.snd
  if new_docs = [] then (store, 0)
  else (store ++ new_ids, new_docs.length)

/-- A concrete suspended ticket: the state after `rag`, `classify`
(escalated) and `escalation` have run, checkpointed right before
`process_human`. -/
def awaitingExample : HelpdeskState :=
  { query := "Quiero un reembolso"
    rag_answer := some "No estoy seguro."
    confidence := 3/10
    sources := ["faq.md"]
    rag_context := some "contexto"
    category := some "escalated"
    requires_human := true
    human_answer := none
    final_answer := none
    history := ["RAG ejecutado con MultiQuery + MMR",
                "Clasificación realizada: escalated",
                "Consulta escalada a agente humano."] }

/-- A concrete ticket whose `final_answer` has already been written. -/
def doneExample : HelpdeskState :=
  { query := "Quiero un reembolso"
    rag_answer := some "Respuesta RAG."
    confidence := 3/10
    sources := ["faq.md"]
    rag_context := some "contexto"
    category := some "escalated"
    requires_human := true
    human_answer := some "Listo"
    final_answer := some "Listo"
    history := [] }

theorem clamp01_bounds (x : ℚ) : 0 ≤ clamp01 x ∧ clamp01 x ≤ 1 :=
  ⟨le_min (le_max_right x 0) zero_le_one, min_le_right _ _⟩

theorem ite_bounds {P : Prop} [Decidable P] {a b : ℚ}
    (ha : 0 ≤ a ∧ a ≤ 1) (hb : 0 ≤ b ∧ b ≤ 1) :
    0 ≤ (if P then a else b) ∧ (if P then a else b) ≤ 1 := by
  split
  · exact ha
  · exact hb

/-- C1: for every query string, every answer text (including absent), every
list of fragments and every list of (fragment, distance) score pairs, the
confidence value returned by `compute_confidence` lies in `[0, 1]`. -/
theorem compute_confidence_bounded (q : String) (a : Option String)
    (docs : List Document) (scored : List (Document × ℚ)) :
    0 ≤ compute_confidence q a docs scored ∧ compute_confidence q a docs scored ≤ 1 := by
  unfold compute_confidence
  split
  · norm_num
  · exact ite_bounds (by norm_num) (clamp01_bounds _)

theorem runStep_history (st : Step) (s : HelpdeskState) :
    ∃ delta, (runStep st s).history = s.history ++ delta := by
  cases st with
  | rag r => exact ⟨_, rfl⟩
  | classify c => exact ⟨_, rfl⟩
  | escalation => exact ⟨_, rfl⟩
  | process_human =>
      simp only [runStep, process_human_answer]
      split
      · exact ⟨_, rfl⟩
      · exact ⟨_, rfl⟩
  | final_answer =>
      simp only [runStep, generate_final_answer]
      split
      · exact ⟨_, rfl⟩
      · exact ⟨_, rfl⟩
  | inject a => exact ⟨[], (List.append_nil _).symm⟩

theorem runSteps_history (steps : List Step) (s : HelpdeskState) :
    s.history <+: (runSteps steps s).history := by
  induction steps generalizing s with
  | nil => exact List.prefix_rfl
  | cons st rest ih =>
      obtain ⟨delta, hd⟩ := runStep_history st s
      calc s.history <+: (runStep st s).history := ⟨delta, hd.symm⟩
        _ <+: (runSteps (st :: rest) s).history := ih (runStep st s)

/-- C3: across any sequence of state-machine transitions (the five graph
nodes in any order and any number of suspend/resume `human_answer`
injections), `history` is append-only: the starting history is a prefix of
the resulting history (so no entry is mutated, removed or reordered) and its
length is non-decreasing. -/
theorem history_append_only (steps : List Step) (s : HelpdeskState) :
    s.history <+: (runSteps steps s).history ∧
    s.history.length ≤ (runSteps steps s).history.length :=
  ⟨runSteps_history steps s, (runSteps_history steps s).length_le⟩

theorem truthy_some_of_ne {a : String} (ha : a ≠ "") : truthy (some a) = true := by
  simp [truthy, ha]

/-- C2 counterexample: the claim quantifies over every non-null
`human_answer`, but `process_human_answer` tests truthiness, not null-ness:
resuming the suspended ticket `awaitingExample` with the non-null empty
string does not copy it into `final_answer`. -/
theorem resume_empty_not_copied_cex :
    awaitingExample.requires_human = true ∧
    (resume_with_human_answer awaitingExample "").final_answer ≠ some "" := by
  refine ⟨rfl, ?_⟩
  simp [resume_with_human_answer, process_human_answer, truthy, awaitingExample]

/-- C2 (amended: the written `human_answer` must be non-null and non-empty):
resuming a suspended ticket with a non-empty `human_answer` copies it
verbatim into `final_answer`, appends exactly one trace entry, keeps
`requires_human` true, and re-runs neither retrieval nor classification
(`rag_answer`, `confidence`, `category`, `sources` and `query` are
untouched).  In particular resuming with "Refund issued." yields
`final_answer = "Refund issued."`. -/
theorem resume_nonempty_copies_verbatim (s : HelpdeskState) (a : String)
    (hreq : s.requires_human = true) (ha : a ≠ "") :
    (resume_with_human_answer s a).final_answer = some a ∧
    (resume_with_human_answer s a).requires_human = true ∧
    (resume_with_human_answer s a).history =
      s.history ++ ["Respuesta proporcionada por agente humano."] ∧
    (resume_with_human_answer s a).rag_answer = s.rag_answer ∧
    (resume_with_human_answer s a).confidence = s.confidence ∧
    (resume_with_human_answer s a).category = s.category ∧
    (resume_with_human_answer s a).sources = s.sources ∧
    (resume_with_human_answer s a).query = s.query := by
  have ht : truthy (some a) = true := truthy_some_of_ne ha
  simp [resume_with_human_answer, process_human_answer, ht, hreq]

/-- C2 witness: Scenario C at the concrete suspended ticket. -/
theorem resume_refund_issued_witness :
    (resume_with_human_answer awaitingExample "Refund issued.").final_answer =
      some "Refund issued." ∧
    (resume_with_human_answer awaitingExample "Refund issued.").requires_human = true ∧
    awaitingExample.history.length + 1 ≤
      (resume_with_human_answer awaitingExample "Refund issued.").history.length := by
  have h := resume_nonempty_copies_verbatim awaitingExample "Refund issued." rfl (by decide)
  refine ⟨h.1, h.2.1, ?_⟩
  rw [h.2.2.1]
  simp

theorem classify_category_eq (c : String) (t : HelpdeskState) :
    (classify_with_context c t).category =
      some (if hasSubstr (pyLower c) "automatic" then "automatic"
            else if hasSubstr (pyLower c) "escalated" then "escalated"
            else if (6 : ℚ)/10 ≤ t.confidence then "automatic" else "escalated") := rfl

/-- C4: classification always produces a category.  When the lowercased
model output contains neither "automatic" nor "escalated", the
deterministic fallback assigns `automatic` iff `confidence ≥ 0.6`; and for
every model output whatsoever the resulting category is one of the two
tokens, so the ticket is never left unrouted. -/
theorem classify_fallback_total (llmContent : String) (s : HelpdeskState)
    (h1 : hasSubstr (pyLower llmContent) "automatic" = false)
    (h2 : hasSubstr (pyLower llmContent) "escalated" = false) :
    (classify_with_context llmContent s).category =
      some (if (6 : ℚ)/10 ≤ s.confidence then "automatic" else "escalated") ∧
    ∀ (c : String) (t : HelpdeskState),
      (classify_with_context c t).category = some "automatic" ∨
      (classify_with_context c t).category = some "escalated" := by
  constructor
  · rw [classify_category_eq, h1, h2]
    simp
  · intro c t
    rw [classify_category_eq]
    split_ifs <;> simp

/-- C4 witness: a malformed classification output with confidence 0.7 is
routed to `automatic` by the fallback. -/
theorem classify_fallback_total_witness :
    (classify_with_context "ni idea"
      { awaitingExample with confidence := 7/10 }).category = some "automatic" := by
  have h := classify_fallback_total "ni idea" { awaitingExample with confidence := 7/10 }
    (by decide) (by decide)
  rw [h.1]
  norm_num

/-- C5: on the automatic branch, if `final_answer` is already set the
finalization step leaves it untouched and appends only a trace entry;
otherwise it sets `final_answer` to the RAG answer text with the
human-readable source list appended when `sources` is non-empty
(`auto_answer`).  Moreover no transition other than the human-answer
consuming node ever changes a set `final_answer`. -/
theorem generate_final_answer_spec (s : HelpdeskState) :
    (truthy s.final_answer = true →
      (generate_final_answer s).final_answer = s.final_answer ∧
      (generate_final_answer s).history =
        s.history ++ ["Respuesta final ya establecida por humano."]) ∧
    (truthy s.final_answer = false →
      (generate_final_answer s).final_answer = some (auto_answer s) ∧
      (generate_final_answer s).history =
        s.history ++ ["Respuesta final generada automáticamente."]) ∧
    (∀ st : Step, st ≠ Step.process_human → truthy s.final_answer = true →
      (runStep st s).final_answer = s.final_answer) := by
  refine ⟨fun h => ?_, fun h => ?_, fun st hst h => ?_⟩
  · simp [generate_final_answer, h]
  · simp [generate_final_answer, h]
  · cases st with
    | process_human => exact absurd rfl hst
    | final_answer => simp [runStep, generate_final_answer, h]
    | rag r => rfl
    | classify c => rfl
    | escalation => rfl
    | inject a => rfl

/-- C5 witness: a ticket whose `final_answer` is already "Listo" keeps it
through the finalization node and through a non-human step. -/
theorem generate_final_answer_spec_witness :
    (generate_final_answer doneExample).final_answer = some "Listo" ∧
    (runStep Step.escalation doneExample).final_answer = some "Listo" := by
  have h := generate_final_answer_spec doneExample
  have ht : truthy doneExample.final_answer = true := by decide
  exact ⟨(h.1 ht).1.trans rfl, (h.2.2 Step.escalation (by simp) ht).trans rfl⟩

/-- C6: re-entering the human-answer node twice while `human_answer` is
still null leaves the ticket in `AwaitingHuman` both times
(`requires_human` true, `final_answer` unset), with `confidence`,
`category` and `sources` identical to before, and each re-entry appends
exactly one "waiting" trace entry. -/
theorem resume_null_idempotent (s : HelpdeskState)
    (hnull : s.human_answer = none) (hreq : s.requires_human = true)
    (hfin : s.final_answer = none) :
    (process_human_answer s).requires_human = true ∧
    (process_human_answer s).final_answer = none ∧
    (process_human_answer s).confidence = s.confidence ∧
    (process_human_answer s).category = s.category ∧
    (process_human_answer s).sources = s.sources ∧
    (process_human_answer s).history =
      s.history ++ ["Esperando respuesta del agente humano."] ∧
    (process_human_answer (process_human_answer s)).requires_human = true ∧
    (process_human_answer (process_human_answer s)).final_answer = none ∧
    (process_human_answer (process_human_answer s)).confidence = s.confidence ∧
    (process_human_answer (process_human_answer s)).category = s.category ∧
    (process_human_answer (process_human_answer s)).sources = s.sources ∧
    (process_human_answer (process_human_answer s)).history =
      (process_human_answer s).history ++ ["Esperando respuesta del agente humano."] := by
  have ht : truthy s.human_answer = false := by rw [hnull]; rfl
  simp [process_human_answer, ht, hreq, hfin]

/-- C6 witness: the concrete suspended ticket re-entered twice with no
human answer. -/
theorem resume_null_idempotent_witness :
    (process_human_answer awaitingExample).requires_human = true ∧
    (process_human_answer (process_human_answer awaitingExample)).final_answer = none ∧
    (process_human_answer (process_human_answer awaitingExample)).confidence =
      awaitingExample.confidence := by
  have h := resume_null_idempotent awaitingExample rfl rfl rfl
  exact ⟨h.1, h.2.2.2.2.2.2.2.1, h.2.2.2.2.2.2.2.2.1⟩

/-- C10: resuming a suspended ticket with the empty string (non-null but
falsy) is treated as if no answer were present: `final_answer` stays unset,
only the waiting trace entry is appended, and the ticket is not finalized;
`requires_human`, `confidence`, `category` and `sources` are untouched. -/
theorem resume_empty_string_waits (s : HelpdeskState)
    (hfin : s.final_answer = none) :
    (resume_with_human_answer s "").final_answer = none ∧
    (resume_with_human_answer s "").human_answer = some "" ∧
    (resume_with_human_answer s "").history =
      s.history ++ ["Esperando respuesta del agente humano."] ∧
    (resume_with_human_answer s "").requires_human = s.requires_human ∧
    (resume_with_human_answer s "").confidence = s.confidence ∧
    (resume_with_human_answer s "").category = s.category ∧
    (resume_with_human_answer s "").sources = s.sources := by
  simp [resume_with_human_answer, process_human_answer, truthy, hfin]

/-- C10 witness: the concrete suspended ticket resumed with `""`. -/
theorem resume_empty_string_waits_witness :
    (resume_with_human_answer awaitingExample "").final_answer = none ∧
    (resume_with_human_answer awaitingExample "").requires_human = true := by
  have h := resume_empty_string_waits awaitingExample rfl
  exact ⟨h.1, h.2.2.2.1.trans rfl⟩

theorem zip_map_filter_snd (docs : List VDoc) (f : VDoc → String) (q : String → Bool) :
    ((docs.zip (docs.map f)).filter (fun p => q p.2)).map Prod.snd
      = (docs.map f).filter q := by
  induction docs with
  | nil => rfl
  | cons d rest ih =>
      simp only [List.map_cons, List.zip_cons_cons, List.filter_cons]
      cases h : q (f d) <;> simp [h, ih]

theorem create_vectorstore_fst (hsh : String → String) (store : List String)
    (docs : List VDoc) :
    (create_vectorstore hsh store docs).1 =
      store ++ (docs.map (fun d => hsh (d.page_content ++ d.metadata))).filter
        (fun i => !store.contains i) := by
  simp only [create_vectorstore]
  split
  · next hempty =>
      have h0 : (docs.zip (docs.map (fun d => hsh (d.page_content ++ d.metadata)))).filter
          (fun p => !store.contains p.2) = [] := List.map_eq_nil_iff.1 hempty
      have h1 : (docs.map (fun d => hsh (d.page_content ++ d.metadata))).filter
          (fun i => !store.contains i) = [] := by
        rw [← zip_map_filter_snd docs (fun d => hsh (d.page_content ++ d.metadata))
          (fun i => !store.contains i), h0]
        rfl
      rw [h1, List.append_nil]
  · next hne =>
      exact congrArg (store ++ ·)
        (zip_map_filter_snd docs (fun d => hsh (d.page_content ++ d.metadata))
          (fun i => !store.contains i))

theorem create_vectorstore_noop (hsh : String → String) (store1 : List String)
    (docs : List VDoc)
    (hall : ∀ d ∈ docs, hsh (d.page_content ++ d.metadata) ∈ store1) :
    create_vectorstore hsh store1 docs = (store1, 0) := by
  have hsel : (docs.zip (docs.map (fun d => hsh (d.page_content ++ d.metadata)))).filter
      (fun p => !store1.contains p.2) = [] := by
    refine List.filter_eq_nil_iff.2 ?_
    rintro ⟨a, b⟩ hp
    have hb : b ∈ docs.map (fun d => hsh (d.page_content ++ d.metadata)) :=
      (List.of_mem_zip hp).2
    obtain ⟨d, hd, rfl⟩ := List.mem_map.1 hb
    have hmem := hall d hd
    simp [hmem]
  simp only [create_vectorstore]
  rw [hsel]
  simp

theorem create_vectorstore_count_le (hsh : String → String) (store : List String)
    (docs : List VDoc) : (create_vectorstore hsh store docs).2 ≤ docs.length := by
  simp only [create_vectorstore]
  split
  · exact Nat.zero_le _
  · simp only [List.length_map]
    exact le_trans (List.length_filter_le _ _) (by simp [List.length_zip])

/-- C7: ingestion is idempotent.  For every hash function, every initial
store and every fragment list, the second identical `create_vectorstore`
call inserts zero documents and leaves the store unchanged, and no call
inserts a fragment more than once (the inserted count never exceeds the
input length). -/
theorem upsert_idempotent (hash_text : String → String) (store : List String)
    (docs : List VDoc) :
    (create_vectorstore hash_text (create_vectorstore hash_text store docs).1 docs).2 = 0 ∧
    (create_vectorstore hash_text (create_vectorstore hash_text store docs).1 docs).1 =
      (create_vectorstore hash_text store docs).1 ∧
    (create_vectorstore hash_text store docs).2 ≤ docs.length := by
  have hall : ∀ d ∈ docs, hash_text (d.page_content ++ d.metadata) ∈
      (create_vectorstore hash_text store docs).1 := by
    intro d hd
    rw [create_vectorstore_fst]
    by_cases hs : hash_text (d.page_content ++ d.metadata) ∈ store
    · exact List.mem_append_left _ hs
    · refine List.mem_append_right _ (List.mem_filter.2 ⟨List.mem_map.2 ⟨d, hd, rfl⟩, ?_⟩)
      simpa using hs
  have hsecond := create_vectorstore_noop hash_text
    (create_vectorstore hash_text store docs).1 docs hall
  refine ⟨?_, ?_, create_vectorstore_count_le hash_text store docs⟩
  · rw [hsecond]
  · rw [hsecond]

/-- C8 counterexample: with one non-empty fragment retrieved and no answer
text, the estimator returns exactly `0.0` — not a low floor in
`[0.1, 0.2]` distinct from the no-fragments value. -/
theorem no_answer_low_floor_cex :
    compute_confidence "q" none
      [{ page_content := "Los reembolsos tardan cinco dias.", filename := some "faq.md" }]
      [] = 0 ∧
    ¬ ((1 : ℚ)/10 ≤ compute_confidence "q" none
        [{ page_content := "Los reembolsos tardan cinco dias.", filename := some "faq.md" }]
        [] ∧
       compute_confidence "q" none
        [{ page_content := "Los reembolsos tardan cinco dias.", filename := some "faq.md" }]
        [] ≤ (2 : ℚ)/10) := by
  have h : compute_confidence "q" none
      [{ page_content := "Los reembolsos tardan cinco dias.", filename := some "faq.md" }]
      [] = 0 := by
    simp [compute_confidence, truthy]
  refine ⟨h, ?_⟩
  rw [h]
  norm_num

/-- C8 (amended: the guard `if not docs or not rag_answer` returns `0.0`,
so a non-empty fragment list with no produced answer yields confidence
`0.0`, the same value as when no fragments are retrieved; no distinct
0.1–0.2 floor exists). -/
theorem no_answer_confidence_zero (q : String) (docs : List Document)
    (scored : List (Document × ℚ)) (h : docs ≠ []) :
    compute_confidence q none docs scored = 0 ∧
    ∀ (q2 a2 : String) (s2 : List (Document × ℚ)),
      compute_confidence q2 (some a2) [] s2 = 0 := by
  constructor
  · simp [compute_confidence, truthy]
  · intro q2 a2 s2
    simp [compute_confidence]

/-- C8 witness. -/
theorem no_answer_confidence_zero_witness :
    compute_confidence "q" none
      [{ page_content := "texto", filename := some "a.md" }] [] = 0 :=
  (no_answer_confidence_zero "q"
    [{ page_content := "texto", filename := some "a.md" }] [] (by simp)).1

/-- C9: when fragments are retrieved but every fragment is empty after
trimming, `query_rag` returns the distinct warning message and preserves the
extracted source identifiers, but its confidence is exactly `0.0` — the
same value as the no-evidence case, contradicting the promised intermediate
confidence. -/
theorem empty_content_confidence_zero :
    (query_rag 4 [{ page_content := "   ", filename := some "faq.md" }]
      "respuesta" [] "q").confidence = 0 ∧
    (query_rag 4 [{ page_content := "   ", filename := some "faq.md" }]
      "respuesta" [] "q").sources = ["faq.md"] ∧
    (query_rag 4 [{ page_content := "   ", filename := some "faq.md" }]
      "respuesta" [] "q").answer =
      "Se encontraron documentos, pero no contienen información útil." ∧
    (query_rag 4 [{ page_content := "   ", filename := some "faq.md" }]
      "respuesta" [] "q").requires_human = some true ∧
    (query_rag 4 [] "respuesta" [] "q").confidence = 0 := by
  decide

end Helpdesk
